import Mathlib

/-!
# Verification of the WebSocket System-Handle `Endpoint` core

A shallow embedding of `src/Endpoint.cpp` (and the configuration path of
`src/Client.cpp`) from the WebSocket bridge endpoint, together with proofs
about its routing-table state machine.

Modelling conventions:

* `std::map` / `std::unordered_map` are association lists with unique keys;
  `mlookup` is `find`, `msetKey` is `operator[]` assignment / `insert_or_assign`,
  `meraseKey` is `erase`, `minsert`-style find-or-create is written out at its
  use site.
* `std::set` / `std::unordered_set` of connection handles are lists with
  membership-preserving `setInsert` / `setErase` (only membership is observed).
* Connection handles (`std::shared_ptr<void>`, compared by pointer identity),
  service-client references and opaque call handles are `Nat` identifiers;
  dynamic data values (`xtypes::DynamicData`) are opaque `Nat`s; dynamic types
  appear only through `name()`, hence as `String`s; YAML configuration blobs
  are opaque `Nat`s.
* The external encoder (`json-xtypes`) is a record of abstract total string
  functions; an empty result string models the encoder refusing a value, as in
  the source.  The `json_xtypes::convert` calls that appear only inside log
  statements are modelled as total (the external converter succeeding), so the
  `catch` arms that merely log a conversion failure do not appear.
* Observable effects (frames sent on a connection, host callbacks invoked,
  error logs) are returned as explicit data next to the successor state.
* A C++ operation that can crash (null-pointer dereference) or throw out of
  its caller is embedded with an explicit failure in its result type.
* `std::size_t` is modelled as 64 bits wide: the service-call counter's
  post-increment wraps modulo `2 ^ 64`.
-/

/-! ## Decimal string ids

`std::to_string` on the `std::size_t` service-call counter, together with a
decoder used to prove that distinct counters yield distinct id strings. -/

/-- The decimal digit character for `d` (mirrors the digits `'0'..'9'` that
`std::to_string` emits). -/
def decDigitChar (d : Nat) : Char := Char.ofNat (48 + d)

/-- `std::to_string` for natural numbers: most-significant digit first. -/
def toDecString (n : Nat) : String :=
  if n = 0 then "0" else String.mk (((Nat.digits 10 n).map decDigitChar).reverse)

/-- Decoder for `toDecString`, establishing injectivity. -/
def decodeDec (s : String) : Nat :=
  Nat.ofDigits 10 ((s.data.map (fun c => c.toNat - 48)).reverse)

theorem decode_toDecString (n : Nat) : decodeDec (toDecString n) = n := by
  by_cases h : n = 0
  · subst h; decide
  · unfold toDecString decodeDec
    rw [if_neg h]
    simp only [List.map_reverse, List.reverse_reverse, List.map_map]
    have hcong : ((Nat.digits 10 n).map ((fun c => c.toNat - 48) ∘ decDigitChar)) =
        Nat.digits 10 n := by
      rw [List.map_congr_left (g := id), List.map_id]
      intro d hd
      have hd10 : d < 10 := Nat.digits_lt_base (by norm_num) hd
      simp only [Function.comp_apply, decDigitChar, id]
      interval_cases d <;> decide
    rw [hcong, Nat.ofDigits_digits]

theorem toDecString_injective : Function.Injective toDecString :=
  Function.LeftInverse.injective decode_toDecString

/-! ## Finite maps as association lists (unique keys) -/

/-- `std::map::find`: the value stored under `key`, if any. -/
def mlookup {α β : Type} [DecidableEq α] : List (α × β) → α → Option β
  | [], _ => none
  | (k, v) :: rest, key => if k = key then some v else mlookup rest key

/-- `std::map` assignment (`m[key] = v` / `insert_or_assign`): replace in
place when present, append otherwise. -/
def msetKey {α β : Type} [DecidableEq α] : List (α × β) → α → β → List (α × β)
  | [], key, v => [(key, v)]
  | (k, w) :: rest, key, v =>
    if k = key then (k, v) :: rest else (k, w) :: msetKey rest key v

/-- `std::map::erase(key)`: on unique-key maps this removes the one entry. -/
def meraseKey {α β : Type} [DecidableEq α] : List (α × β) → α → List (α × β)
  | [], _ => []
  | (k, v) :: rest, key =>
    if k = key then meraseKey rest key else (k, v) :: meraseKey rest key

theorem mlookup_msetKey_self {α β : Type} [DecidableEq α]
    (m : List (α × β)) (key : α) (v : β) : mlookup (msetKey m key v) key = some v := by
  induction m with
  | nil => simp [msetKey, mlookup]
  | cons p rest ih =>
    obtain ⟨k, w⟩ := p
    by_cases h : k = key <;> simp [msetKey, mlookup, h, ih]

theorem mlookup_msetKey_ne {α β : Type} [DecidableEq α]
    (m : List (α × β)) (key key' : α) (v : β) (h : key' ≠ key) :
    mlookup (msetKey m key v) key' = mlookup m key' := by
  induction m with
  | nil => simp [msetKey, mlookup, Ne.symm h]
  | cons p rest ih =>
    obtain ⟨k, w⟩ := p
    by_cases hk : k = key
    · subst hk
      simp [msetKey, mlookup, Ne.symm h]
    · by_cases hk' : k = key' <;> simp [msetKey, mlookup, hk, hk', h, ih]

theorem mlookup_meraseKey_self {α β : Type} [DecidableEq α]
    (m : List (α × β)) (key : α) : mlookup (meraseKey m key) key = none := by
  induction m with
  | nil => simp [meraseKey, mlookup]
  | cons p rest ih =>
    obtain ⟨k, w⟩ := p
    by_cases h : k = key <;> simp [meraseKey, mlookup, h, ih]

theorem mlookup_meraseKey_ne {α β : Type} [DecidableEq α]
    (m : List (α × β)) (key key' : α) (h : key' ≠ key) :
    mlookup (meraseKey m key) key' = mlookup m key' := by
  induction m with
  | nil => simp [meraseKey, mlookup]
  | cons p rest ih =>
    obtain ⟨k, w⟩ := p
    by_cases hk : k = key
    · subst hk
      simp [meraseKey, mlookup, Ne.symm h, ih]
    · by_cases hk' : k = key' <;> simp [meraseKey, mlookup, hk, hk', h, ih]

theorem mlookup_map_value {α β γ : Type} [DecidableEq α]
    (m : List (α × β)) (g : β → γ) (key : α) :
    mlookup (m.map (fun p => (p.1, g p.2))) key = (mlookup m key).map g := by
  induction m with
  | nil => simp [mlookup]
  | cons p rest ih =>
    obtain ⟨k, w⟩ := p
    by_cases h : k = key <;> simp [mlookup, h, ih]

/-! ## Handle sets (`std::set<std::shared_ptr<void>>`) -/

/-- `std::set::insert`. -/
def setInsert (s : List Nat) (x : Nat) : List Nat := if x ∈ s then s else x :: s

/-- `std::set::erase`. -/
def setErase : List Nat → Nat → List Nat
  | [], _ => []
  | y :: rest, x => if y = x then setErase rest x else y :: setErase rest x

theorem mem_setInsert (s : List Nat) (x y : Nat) :
    y ∈ setInsert s x ↔ y = x ∨ y ∈ s := by
  by_cases h : x ∈ s
  · simp only [setInsert, if_pos h]
    constructor
    · exact Or.inr
    · rintro (rfl | hy)
      · exact h
      · exact hy
  · simp [setInsert, if_neg h]

theorem mem_setErase (s : List Nat) (x y : Nat) :
    y ∈ setErase s x ↔ y ∈ s ∧ y ≠ x := by
  induction s with
  | nil => simp [setErase]
  | cons z rest ih =>
    by_cases h : z = x
    · subst h
      have hz : setErase (z :: rest) z = setErase rest z := by simp [setErase]
      rw [hz, ih, List.mem_cons]
      constructor
      · rintro ⟨hy, hne⟩
        exact ⟨Or.inr hy, hne⟩
      · rintro ⟨rfl | hy, hne⟩
        · exact absurd rfl hne
        · exact ⟨hy, hne⟩
    · simp only [setErase, if_neg h, List.mem_cons, ih]
      constructor
      · rintro (rfl | ⟨hy, hne⟩)
        · exact ⟨Or.inl rfl, h⟩
        · exact ⟨Or.inr hy, hne⟩
      · rintro ⟨rfl | hy, hne⟩
        · exact Or.inl rfl
        · exact Or.inr ⟨hy, hne⟩

/-! ## Data model (`Endpoint.hpp` state, as used by `Endpoint.cpp`) -/

/-- Per-topic state for a topic this endpoint subscribed to: expected type
name, the host callback (an opaque identifier), and the blacklist of
connections that advertised a mismatching type. -/
structure TopicSubscribeInfo where
  type : String
  callback : Nat
  blacklist : List Nat
deriving DecidableEq

/-- Per-topic state for a topic this endpoint publishes: advertised type name
and the listener map from connection handle to the set of subscription ids
that connection requested. -/
structure TopicPublishInfo where
  type : String
  listeners : List (Nat × List String)
deriving DecidableEq

/-- Per-service state for a service this endpoint provides to remote callers. -/
structure ClientProxyInfo where
  req_type : String
  reply_type : String
  callback : Nat
  configuration : Nat
deriving DecidableEq

/-- Per-service state for a service this endpoint calls remotely: the remote
provider's declared types and connection handle. -/
structure ServiceProviderInfo where
  req_type : String
  reply_type : String
  connection_handle : Nat
  configuration : Nat
deriving DecidableEq

/-- One in-flight outbound service call: the host-side client to deliver the
response to and the opaque call handle it supplied. -/
structure ServiceRequestInfo where
  client : Nat
  call_handle : Nat
deriving DecidableEq

/-- The `Endpoint` routing-table state (the `_`-prefixed members of the C++
class, minus the transport objects and logger, which carry no routed data). -/
structure EndpointState where
  topic_subscribe_info : List (String × TopicSubscribeInfo)
  topic_publish_info : List (String × TopicPublishInfo)
  client_proxy_info : List (String × ClientProxyInfo)
  service_provider_info : List (String × ServiceProviderInfo)
  service_request_info : List (String × ServiceRequestInfo)
  startup_messages : List String
  next_service_call_id : Nat
deriving DecidableEq

/-- The external encoder: a record of the abstract (total) encoding functions
the routed operations call.  Arguments follow the C++ signatures; dynamic
data and YAML configuration are opaque `Nat`s. -/
structure Encoding where
  encode_publication_msg : String → String → String → Nat → String
  encode_call_service_msg : String → String → Nat → String → Nat → String

/-- The freshly constructed endpoint: empty tables, `_next_service_call_id`
initialised to 1 by the `Endpoint` constructor. -/
def initialEndpoint : EndpointState :=
  { topic_subscribe_info := []
    topic_publish_info := []
    client_proxy_info := []
    service_provider_info := []
    service_request_info := []
    startup_messages := []
    next_service_call_id := 1 }

/-! ## `Endpoint::receive_topic_advertisement_ws` -/

/-- `Endpoint::receive_topic_advertisement_ws(topic_name, message_type, id,
connection_handle)`: when the topic is subscribed, a type mismatch inserts
the source connection into the blacklist and a match erases it; an unknown
topic only logs a warning.  `message_type` is the advertised type's name;
the `id` argument is unused by the source. -/
def receive_topic_advertisement_ws (s : EndpointState) (topic_name : String)
    (message_type : String) (connection_handle : Nat) : EndpointState :=
  match mlookup s.topic_subscribe_info topic_name with
  | some info =>
    if message_type ≠ info.type then
      let info2 := { info with blacklist := setInsert info.blacklist connection_handle }
      { s with topic_subscribe_info := msetKey s.topic_subscribe_info topic_name info2 }
    else
      let info2 := { info with blacklist := setErase info.blacklist connection_handle }
      { s with topic_subscribe_info := msetKey s.topic_subscribe_info topic_name info2 }
  | none => s

/-- One incoming topic advertisement, as consumed by
`receive_topic_advertisement_ws` (the frame's unused `id` field is dropped). -/
structure AdEvent where
  topic : String
  type_name : String
  conn : Nat
deriving DecidableEq

/-- Process a sequence of incoming topic advertisements in order. -/
def run_advertisements (s : EndpointState) : List AdEvent → EndpointState
  | [] => s
  | e :: es =>
    run_advertisements (receive_topic_advertisement_ws s e.topic e.type_name e.conn) es

/-- The type name declared by the last advertisement for topic `T` from
connection `C` in the event sequence, if any (the specification's notion of
"the last topic advertisement received from C for T"). -/
def lastAdType : List AdEvent → String → Nat → Option String
  | [], _, _ => none
  | e :: es, T, C =>
    match lastAdType es T C with
    | some t => some t
    | none => if e.topic = T ∧ e.conn = C then some e.type_name else none

/-! ## `Endpoint::receive_service_response_ws` -/

/-- Result of `receive_service_response_ws`: the successor state, the list of
host-client callbacks invoked (client, call handle, response), and whether
the unrecognized-id error was logged. -/
structure RecvResponseResult where
  state : EndpointState
  callbacks : List (Nat × Nat × Nat)
  error_logged : Bool
deriving DecidableEq

/-- `Endpoint::receive_service_response_ws(service_name, response, id,
connection_handle)`: look up the in-flight ledger by `id`; if absent, log an
error and return; otherwise invoke the recorded client's `receive_response`
with the stored call handle and the response, then erase the ledger entry.
The `service_name` and connection handle are not consulted (the source notes
this); the `json_xtypes::convert` in the debug log is modelled as succeeding. -/
def receive_service_response_ws (s : EndpointState) (response : Nat)
    (id : String) : RecvResponseResult :=
  match mlookup s.service_request_info id with
  | none => { state := s, callbacks := [], error_logged := true }
  | some info =>
    { state := { s with service_request_info := meraseKey s.service_request_info id }
      callbacks := [(info.client, info.call_handle, response)]
      error_logged := false }

/-! ## `Endpoint::notify_connection_closed` -/

/-- Remove the entries of `_service_provider_info` whose recorded connection
handle is `h` (the source collects the names and then erases them; on a
unique-key map that is this filter). -/
def removeProvidersOf : List (String × ServiceProviderInfo) → Nat →
    List (String × ServiceProviderInfo)
  | [], _ => []
  | (k, v) :: rest, h =>
    if v.connection_handle = h then removeProvidersOf rest h
    else (k, v) :: removeProvidersOf rest h

/-- `Endpoint::notify_connection_closed(connection_handle)`: erase the handle
from every subscribe blacklist and every publish listener map, and drop the
service providers recorded on that connection.  `_service_request_info` is
deliberately untouched. -/
def notify_connection_closed (s : EndpointState) (connection_handle : Nat) :
    EndpointState :=
  { s with
    topic_subscribe_info := s.topic_subscribe_info.map
      (fun p => (p.1, { p.2 with blacklist := setErase p.2.blacklist connection_handle }))
    topic_publish_info := s.topic_publish_info.map
      (fun p => (p.1, { p.2 with listeners := meraseKey p.2.listeners connection_handle }))
    service_provider_info := removeProvidersOf s.service_provider_info connection_handle }

/-! ## `Endpoint::publish` -/

/-- Result of a successful `publish`: the boolean return value and the frames
sent, as (connection handle, payload) in listener-map order. -/
structure PublishResult where
  ok : Bool
  sends : List (Nat × String)
deriving DecidableEq

/-- `Endpoint::publish(topic, message)`: `_topic_publish_info.at(topic)`
throws when the topic has no entry (modelled as `none`); with an entry, an
empty listener map returns success with no work, and otherwise the loop
encodes once per listener and sends unless the encoding came back empty.
Send errors are logged but do not change the return value. -/
def publish (env : Encoding) (s : EndpointState) (topic : String)
    (message : Nat) : Option PublishResult :=
  match mlookup s.topic_publish_info topic with
  | none => none
  | some info =>
    if info.listeners = [] then some { ok := true, sends := [] }
    else
      some { ok := true
             sends := info.listeners.filterMap (fun l =>
               let payload := env.encode_publication_msg topic info.type "" message
               if payload = "" then none else some (l.1, payload)) }

/-! ## `Endpoint::call_service` -/

/-- The mutex-guarded block of `Endpoint::call_service`: read the counter as
`id = _next_service_call_id++`, convert the allocated id to decimal, and
record the `ServiceRequestInfo` under that id string.  Returns the numeric id
taken.  The counter is a `std::size_t` (modelled as 64-bit), so the
post-increment wraps modulo `2 ^ 64`.  The `_next_service_call_id_mutex`
makes this block atomic, so a concurrent execution is some interleaving of
these atomic blocks. -/
def alloc_service_call_id (s : EndpointState) (client call_handle : Nat) :
    Nat × EndpointState :=
  let id := s.next_service_call_id
  (id, { s with
          next_service_call_id := (id + 1) % 2 ^ 64
          service_request_info :=
            msetKey s.service_request_info (toDecString id) ⟨client, call_handle⟩ })

/-- The numeric ids allocated by a sequence of `call_service` invocations
(each element of `calls` is the (client, call handle) pair of one caller). -/
def allocIds (s : EndpointState) : List (Nat × Nat) → List Nat
  | [] => []
  | c :: rest =>
    let r := alloc_service_call_id s c.1 c.2
    r.1 :: allocIds r.2 rest

/-- Result of `call_service`: successor state, whether the unguarded
`_service_provider_info.at(service)` threw out of the call, and the frames
sent (connection handle, payload). -/
structure CallServiceResult where
  state : EndpointState
  threw : Bool
  sends : List (Nat × String)
deriving DecidableEq

/-- `Endpoint::call_service(service, request, client, call_handle)`: allocate
an id and insert the ledger entry under the mutex, then look up the provider
with `.at` (which throws `std::out_of_range` past the caller when the service
has no provider, leaving the already-performed mutations in place), encode,
and send on the provider's stored connection; an empty encoding returns
without sending. -/
def call_service (env : Encoding) (s : EndpointState) (service : String)
    (request : Nat) (client call_handle : Nat) : CallServiceResult :=
  let a := alloc_service_call_id s client call_handle
  let id_str := toDecString a.1
  match mlookup a.2.service_provider_info service with
  | none => { state := a.2, threw := true, sends := [] }
  | some provider =>
    let payload := env.encode_call_service_msg service provider.req_type request
      id_str provider.configuration
    if payload = "" then { state := a.2, threw := false, sends := [] }
    else { state := a.2, threw := false
           sends := [(provider.connection_handle, payload)] }

/-! ## `Endpoint::notify_connection_opened` -/

/-- The frames sent by `Endpoint::notify_connection_opened` (both the TLS and
the TCP overload run the same loop): `for (msg : _startup_messages)
connection_handle->send(msg)`, mirrored as a fold accumulating the sends. -/
def notify_connection_opened_sends (s : EndpointState) : List String :=
  s.startup_messages.foldl (fun acc msg => acc ++ [msg]) []

theorem foldl_append_singleton (l acc : List String) :
    l.foldl (fun a msg => a ++ [msg]) acc = acc ++ l := by
  induction l generalizing acc with
  | nil => simp
  | cons m rest ih => simp [List.foldl_cons, ih]

theorem notify_connection_opened_sends_eq (s : EndpointState) :
    notify_connection_opened_sends s = s.startup_messages := by
  unfold notify_connection_opened_sends
  rw [foldl_append_singleton]
  simp

/-- One event observable on a single connection: the transport's `opened`
callback, or the endpoint sending an application frame `f` on it. -/
inductive ConnEvent where
  | opened : ConnEvent
  | app : String → ConnEvent
deriving DecidableEq

/-- The log of frames sent on one connection along an event stream, each
tagged with whether it came from the startup-replay of `opened` (`true`) or
was an application frame (`false`). -/
def conn_log (s : EndpointState) : List ConnEvent → List (Bool × String)
  | [] => []
  | ConnEvent.opened :: es =>
    (notify_connection_opened_sends s).map (fun m => (true, m)) ++ conn_log s es
  | ConnEvent.app f :: es => (false, f) :: conn_log s es

/-! ## `Endpoint::receive_subscribe_request_ws` -/

/-- `std::unordered_set<std::string>::insert` of `id` into the id set the
listener map holds for `connection_handle` (`operator[]` default-constructs
the set when absent). -/
def addListener (li : List (Nat × List String)) (connection_handle : Nat)
    (id : String) : List (Nat × List String) :=
  match mlookup li connection_handle with
  | none => msetKey li connection_handle [id]
  | some ids =>
    msetKey li connection_handle (if id ∈ ids then ids else id :: ids)

/-- `Endpoint::receive_subscribe_request_ws(topic_name, message_type, id,
connection_handle)`.  `message_type` is a possibly-null pointer, hence an
`Option`.  The source inserts a default `TopicPublishInfo` when the topic is
new (warning), rejects an existing-topic request whose given type name
mismatches, and otherwise logs a debug line that dereferences `message_type`
unconditionally — so an existing-topic request without a type reaches a null
dereference, modelled as `none`.  On success it records `(connection_handle,
id)` in the listener map. -/
def receive_subscribe_request_ws (s : EndpointState) (topic_name : String)
    (message_type : Option String) (id : String) (connection_handle : Nat) :
    Option EndpointState :=
  match mlookup s.topic_publish_info topic_name with
  | none =>
    let info : TopicPublishInfo := { type := "", listeners := addListener [] connection_handle id }
    some { s with topic_publish_info := s.topic_publish_info ++ [(topic_name, info)] }
  | some info =>
    match message_type with
    | some t =>
      if t ≠ info.type then some s
      else
        let info2 := { info with listeners := addListener info.listeners connection_handle id }
        some { s with topic_publish_info := msetKey s.topic_publish_info topic_name info2 }
    | none => none

/-! ## `Endpoint::parse_port` and `Client::configure_tcp_endpoint` -/

/-- The outcome of `port_node.as<int>()` on a present `"port"` key, following
yaml-cpp's exception hierarchy: the call either parses, or throws
`YAML::BadConversion` (the conversion-failure exception, a sibling of
`YAML::InvalidNode` under `RepresentationException`, NOT a subclass of it),
or throws `YAML::InvalidNode` (invalid/zombie node access).  The distinction
matters because the `catch` in `parse_port` names only `YAML::InvalidNode`. -/
inductive AsIntOutcome where
  | parsed : Int → AsIntOutcome
  | badConversion : AsIntOutcome
  | invalidNode : AsIntOutcome
deriving DecidableEq

/-- The YAML configuration as `parse_port` and `configure_tcp_endpoint`
observe it.  `port` is `none` when the `"port"` key is absent, otherwise the
outcome of `as<int>()` on its value.  `client_ok` abstracts the outcome of
the transport-level `configure_client` call (certificate loading and
initialisation), which is outside the routed core. -/
structure PortConfig where
  port : Option AsIntOutcome
  client_ok : Bool
deriving DecidableEq

/-- `Endpoint::parse_port(configuration)`: a missing key logs an error and
returns `-1`; a parsed value is returned; a `YAML::InvalidNode` throw is
caught, logged, and falls through to `return -1`; a `YAML::BadConversion`
throw (the one `as<int>()` actually raises on an unparsable value) is NOT
matched by the `catch (const YAML::InvalidNode&)` clause and escapes the
function, modelled as `Except.error`. -/
def parse_port (cfg : PortConfig) : Except Unit Int :=
  match cfg.port with
  | some (AsIntOutcome.parsed p) => Except.ok p
  | some AsIntOutcome.badConversion => Except.error ()
  | some AsIntOutcome.invalidNode => Except.ok (-1)
  | none => Except.ok (-1)

/-- `Client::configure_tcp_endpoint(types, configuration)`: an exception
escaping `parse_port` propagates (there is no handler on this path, so it
reaches the caller of `configure`); a negative port returns `nullptr`
(`Except.ok none`); otherwise the endpoint is returned iff the
transport-level `configure_client` succeeds.  The value carried on success is
the (narrowed) port, the only configuration datum the routed core consumes. -/
def configure_tcp_endpoint (cfg : PortConfig) : Except Unit (Option Int) :=
  match parse_port cfg with
  | Except.error e => Except.error e
  | Except.ok port =>
    if port < 0 then Except.ok none
    else if cfg.client_ok then Except.ok (some port) else Except.ok none

/-! ## Sample states used by witnesses -/

/-- A state with one in-flight service call, ledger id `"5"`. -/
def sampleLedgerState : EndpointState :=
  { initialEndpoint with service_request_info := [("5", ⟨2, 3⟩)] }

/-- A state with routed entries on connections 4 and 6. -/
def sampleRoutedState : EndpointState :=
  { initialEndpoint with
    topic_subscribe_info := [("t", ⟨"Str", 0, [4, 5]⟩)]
    topic_publish_info := [("u", ⟨"Int", [(4, ["a"]), (6, ["b"])]⟩)]
    service_provider_info := [("svc", ⟨"Req", "Rep", 4, 0⟩), ("svc2", ⟨"Req", "Rep", 6, 0⟩)]
    service_request_info := [("1", ⟨2, 3⟩)] }

/-- A state advertising topic `"chat"` with type `"Str"` and no listeners. -/
def samplePublishState : EndpointState :=
  { initialEndpoint with topic_publish_info := [("chat", ⟨"Str", []⟩)] }

/-- An encoder whose publication encoding is the constant `"p"` and whose
service-call encoding is the constant `"q"`. -/
def sampleEncoding : Encoding := ⟨fun _ _ _ _ => "p", fun _ _ _ _ _ => "q"⟩

/-! ## Claim theorems -/

/-- C1: `receive_service_response_ws` with an id matching an in-flight ledger
entry invokes the recorded client's `receive_response` exactly once with that
response and then erases the ledger entry; with an unmatched id it logs an
error, fires no callback, and leaves all endpoint state (ledger included)
unchanged. -/
theorem c1_receive_service_response (s : EndpointState) (response : Nat) (id : String) :
    (∀ info, mlookup s.service_request_info id = some info →
      (receive_service_response_ws s response id).callbacks
          = [(info.client, info.call_handle, response)]
      ∧ (receive_service_response_ws s response id).state.service_request_info
          = meraseKey s.service_request_info id
      ∧ mlookup (receive_service_response_ws s response id).state.service_request_info id
          = none
      ∧ (receive_service_response_ws s response id).error_logged = false)
    ∧ (mlookup s.service_request_info id = none →
      (receive_service_response_ws s response id).callbacks = []
      ∧ (receive_service_response_ws s response id).error_logged = true
      ∧ (receive_service_response_ws s response id).state = s) := by
  constructor
  · intro info hinfo
    simp [receive_service_response_ws, hinfo, mlookup_meraseKey_self]
  · intro hnone
    simp [receive_service_response_ws, hnone]

/-- Witness for C1 on `sampleLedgerState`: id `"5"` is in flight (callback
fires once, entry erased); id `"999"` is unknown (error logged, no callback,
state untouched). -/
theorem c1_witness :
    (mlookup sampleLedgerState.service_request_info "5" = some ⟨2, 3⟩
      ∧ (receive_service_response_ws sampleLedgerState 7 "5").callbacks = [(2, 3, 7)]
      ∧ mlookup (receive_service_response_ws sampleLedgerState 7 "5").state.service_request_info "5"
          = none)
    ∧ (mlookup sampleLedgerState.service_request_info "999" = none
      ∧ (receive_service_response_ws sampleLedgerState 7 "999").callbacks = []
      ∧ (receive_service_response_ws sampleLedgerState 7 "999").error_logged = true
      ∧ (receive_service_response_ws sampleLedgerState 7 "999").state = sampleLedgerState) := by
  have h₁ := (c1_receive_service_response sampleLedgerState 7 "5").1 ⟨2, 3⟩ (by decide)
  have h₂ := (c1_receive_service_response sampleLedgerState 7 "999").2 (by decide)
  exact ⟨⟨by decide, h₁.1, h₁.2.2.1⟩, ⟨by decide, h₂.1, h₂.2.1, h₂.2.2⟩⟩

/-- C7 (failing input): on a `"port"` value that `as<int>()` cannot parse the
thrown `YAML::BadConversion` escapes `parse_port` uncaught (the `catch`
names only `YAML::InvalidNode`) and propagates through
`configure_tcp_endpoint` to the caller of `configure` — the claim's
"returns failure, does not raise" holds for the missing-key case (first two
conjuncts) but fails for the cannot-parse case (last two conjuncts). -/
theorem c7_unparsable_port_escapes :
    parse_port { port := none, client_ok := true } = Except.ok (-1)
    ∧ configure_tcp_endpoint { port := none, client_ok := true } = Except.ok none
    ∧ parse_port { port := some AsIntOutcome.badConversion, client_ok := true }
        = Except.error ()
    ∧ configure_tcp_endpoint { port := some AsIntOutcome.badConversion, client_ok := true }
        = Except.error () :=
  ⟨rfl, rfl, rfl, rfl⟩

/-- C8 (failing input): a subscription request for topic `"chat"`, which
already has a `TopicPublishInfo`, arriving without a type name, reaches the
unconditional `message_type->name()` dereference in the debug-log statement
and crashes instead of recording the listener. -/
theorem c8_null_type_dereference :
    receive_subscribe_request_ws samplePublishState "chat" none "1" 7 = none := by
  decide

/-- C10: `receive_subscribe_request_ws` completes without a null dereference
exactly when `message_type` is non-null whenever the topic already has a
`TopicPublishInfo` entry: the mismatch guard short-circuits on a null
`message_type` and the debug-log path then dereferences it. -/
theorem c10_subscribe_request_null_safety (s : EndpointState) (topic_name : String)
    (message_type : Option String) (id : String) (connection_handle : Nat) :
    (receive_subscribe_request_ws s topic_name message_type id connection_handle).isSome
      ↔ ((mlookup s.topic_publish_info topic_name).isSome → message_type.isSome) := by
  unfold receive_subscribe_request_ws
  cases hm : mlookup s.topic_publish_info topic_name <;>
    cases message_type <;> simp [hm]
  split <;> simp

theorem mlookup_removeProvidersOf (m : List (String × ServiceProviderInfo))
    (h : Nat) (svc : String) (info : ServiceProviderInfo)
    (hl : mlookup (removeProvidersOf m h) svc = some info) :
    info.connection_handle ≠ h := by
  induction m with
  | nil => simp [removeProvidersOf, mlookup] at hl
  | cons p rest ih =>
    obtain ⟨k, v⟩ := p
    by_cases hv : v.connection_handle = h
    · rw [removeProvidersOf, if_pos hv] at hl
      exact ih hl
    · rw [removeProvidersOf, if_neg hv] at hl
      by_cases hk : k = svc
      · rw [mlookup, if_pos hk] at hl
        injection hl with hl
        subst hl
        exact hv
      · rw [mlookup, if_neg hk] at hl
        exact ih hl

theorem mlookup_map_blacklist_erase (m : List (String × TopicSubscribeInfo))
    (h : Nat) (T : String) :
    mlookup (m.map (fun p => (p.1, { p.2 with blacklist := setErase p.2.blacklist h }))) T
      = (mlookup m T).map (fun v => { v with blacklist := setErase v.blacklist h }) := by
  induction m with
  | nil => simp [mlookup]
  | cons p rest ih =>
    obtain ⟨k, v⟩ := p
    by_cases hk : k = T <;> simp [mlookup, hk, ih]

theorem mlookup_map_listeners_erase (m : List (String × TopicPublishInfo))
    (h : Nat) (T : String) :
    mlookup (m.map (fun p => (p.1, { p.2 with listeners := meraseKey p.2.listeners h }))) T
      = (mlookup m T).map (fun v => { v with listeners := meraseKey v.listeners h }) := by
  induction m with
  | nil => simp [mlookup]
  | cons p rest ih =>
    obtain ⟨k, v⟩ := p
    by_cases hk : k = T <;> simp [mlookup, hk, ih]

/-- C3: after `notify_connection_closed` for handle `H`, the handle appears
in no topic-subscribe blacklist, in no topic-publish listener map, and in no
`ServiceProviderInfo` entry, while the in-flight call ledger
`_service_request_info` is unchanged. -/
theorem c3_notify_connection_closed (s : EndpointState) (H : Nat) :
    (∀ T info, mlookup (notify_connection_closed s H).topic_subscribe_info T = some info →
      H ∉ info.blacklist)
    ∧ (∀ T info, mlookup (notify_connection_closed s H).topic_publish_info T = some info →
      mlookup info.listeners H = none)
    ∧ (∀ svc info, mlookup (notify_connection_closed s H).service_provider_info svc = some info →
      info.connection_handle ≠ H)
    ∧ (notify_connection_closed s H).service_request_info = s.service_request_info := by
  refine ⟨?_, ?_, ?_, rfl⟩
  · intro T info hinfo
    rw [show (notify_connection_closed s H).topic_subscribe_info
        = s.topic_subscribe_info.map
            (fun p => (p.1, { p.2 with blacklist := setErase p.2.blacklist H })) from rfl,
      mlookup_map_blacklist_erase] at hinfo
    cases hv : mlookup s.topic_subscribe_info T with
    | none => rw [hv] at hinfo; simp at hinfo
    | some v =>
      rw [hv] at hinfo
      injection hinfo with hinfo
      subst hinfo
      intro hmem
      exact absurd rfl ((mem_setErase v.blacklist H H).mp hmem).2
  · intro T info hinfo
    rw [show (notify_connection_closed s H).topic_publish_info
        = s.topic_publish_info.map
            (fun p => (p.1, { p.2 with listeners := meraseKey p.2.listeners H })) from rfl,
      mlookup_map_listeners_erase] at hinfo
    cases hv : mlookup s.topic_publish_info T with
    | none => rw [hv] at hinfo; simp at hinfo
    | some v =>
      rw [hv] at hinfo
      injection hinfo with hinfo
      subst hinfo
      exact mlookup_meraseKey_self v.listeners H
  · intro svc info hinfo
    exact mlookup_removeProvidersOf s.service_provider_info H svc info hinfo

/-- Witness for C3 on `sampleRoutedState` closing handle 4: the blacklist for
`"t"` keeps only 5, the listener map for `"u"` keeps only connection 6, the
provider on connection 4 is dropped while the one on 6 survives, and the
ledger is untouched. -/
theorem c3_witness :
    (mlookup (notify_connection_closed sampleRoutedState 4).topic_subscribe_info "t"
        = some ⟨"Str", 0, [5]⟩
      ∧ (4 : Nat) ∉ (⟨"Str", 0, [5]⟩ : TopicSubscribeInfo).blacklist)
    ∧ (mlookup (notify_connection_closed sampleRoutedState 4).topic_publish_info "u"
        = some ⟨"Int", [(6, ["b"])]⟩
      ∧ mlookup (⟨"Int", [(6, ["b"])]⟩ : TopicPublishInfo).listeners 4 = none)
    ∧ (mlookup (notify_connection_closed sampleRoutedState 4).service_provider_info "svc2"
        = some ⟨"Req", "Rep", 6, 0⟩
      ∧ (⟨"Req", "Rep", 6, 0⟩ : ServiceProviderInfo).connection_handle ≠ 4)
    ∧ (notify_connection_closed sampleRoutedState 4).service_request_info
        = sampleRoutedState.service_request_info := by
  have h := c3_notify_connection_closed sampleRoutedState 4
  exact ⟨⟨by decide, h.1 "t" ⟨"Str", 0, [5]⟩ (by decide)⟩,
    ⟨by decide, h.2.1 "u" ⟨"Int", [(6, ["b"])]⟩ (by decide)⟩,
    ⟨by decide, h.2.2.1 "svc2" ⟨"Req", "Rep", 6, 0⟩ (by decide)⟩,
    h.2.2.2⟩

theorem filterMap_some_pair (li : List (Nat × List String)) (payload : String) :
    li.filterMap (fun l => some (l.1, payload)) = li.map (fun l => (l.1, payload)) := by
  induction li with
  | nil => simp
  | cons l rest ih => simp [List.filterMap_cons, ih]

theorem filterMap_publish_send (li : List (Nat × List String)) (payload : String)
    (hp : payload ≠ "") :
    li.filterMap (fun l => if payload = "" then none else some (l.1, payload))
      = li.map (fun l => (l.1, payload)) := by
  simp only [if_neg hp]
  exact filterMap_some_pair li payload

theorem filterMap_publish_drop (li : List (Nat × List String)) (payload : String)
    (hp : payload = "") :
    li.filterMap (fun l => if payload = "" then none else some (l.1, payload)) = [] := by
  simp [hp]

/-- C4: for a topic with a `TopicPublishInfo` entry, `publish` returns
success and issues exactly one send per listener connection (in listener-map
order, all with the per-listener encoding of the value) when the encoding is
non-empty, no sends when the encoding comes back empty, and no sends when
the listener map is empty. -/
theorem c4_publish (env : Encoding) (s : EndpointState) (topic : String)
    (message : Nat) (info : TopicPublishInfo)
    (h : mlookup s.topic_publish_info topic = some info) :
    ∃ r, publish env s topic message = some r ∧ r.ok = true
      ∧ (env.encode_publication_msg topic info.type "" message ≠ "" →
          r.sends = info.listeners.map
            (fun l => (l.1, env.encode_publication_msg topic info.type "" message)))
      ∧ (env.encode_publication_msg topic info.type "" message = "" → r.sends = [])
      ∧ (info.listeners = [] → r.sends = []) := by
  unfold publish
  rw [h]
  dsimp only
  by_cases hl : info.listeners = []
  · refine ⟨⟨true, []⟩, by simp [hl], rfl, ?_, fun _ => rfl, fun _ => rfl⟩
    intro _
    simp [hl]
  · rw [if_neg hl]
    refine ⟨_, rfl, rfl, ?_, ?_, fun hc => absurd hc hl⟩
    · intro hp
      exact filterMap_publish_send info.listeners _ hp
    · intro hp
      exact filterMap_publish_drop info.listeners _ hp

/-- Witness for C4: publishing on `"u"` of `sampleRoutedState` with the
constant-`"p"` encoder sends once to each of the listeners 4 and 6. -/
theorem c4_witness :
    mlookup sampleRoutedState.topic_publish_info "u"
        = some ⟨"Int", [(4, ["a"]), (6, ["b"])]⟩
    ∧ ∃ r, publish sampleEncoding sampleRoutedState "u" 9 = some r ∧ r.ok = true
      ∧ (sampleEncoding.encode_publication_msg "u"
            (⟨"Int", [(4, ["a"]), (6, ["b"])]⟩ : TopicPublishInfo).type "" 9 ≠ "" →
          r.sends = (⟨"Int", [(4, ["a"]), (6, ["b"])]⟩ : TopicPublishInfo).listeners.map
            (fun l => (l.1, sampleEncoding.encode_publication_msg "u"
              (⟨"Int", [(4, ["a"]), (6, ["b"])]⟩ : TopicPublishInfo).type "" 9)))
      ∧ (sampleEncoding.encode_publication_msg "u"
            (⟨"Int", [(4, ["a"]), (6, ["b"])]⟩ : TopicPublishInfo).type "" 9 = "" →
          r.sends = [])
      ∧ ((⟨"Int", [(4, ["a"]), (6, ["b"])]⟩ : TopicPublishInfo).listeners = [] →
          r.sends = []) :=
  ⟨by decide, c4_publish sampleEncoding sampleRoutedState "u" 9 _ (by decide)⟩

/-- C9: `call_service` on a service with no `ServiceProviderInfo` entry first
allocates an id and inserts the ledger entry, then throws out of the provider
lookup, leaving the fresh entry in the table — so the failed call does not
leave the endpoint state unchanged. -/
theorem c9_call_service_unknown_provider (env : Encoding) (s : EndpointState)
    (service : String) (request : Nat) (client call_handle : Nat)
    (hprov : mlookup s.service_provider_info service = none)
    (hfresh : mlookup s.service_request_info (toDecString s.next_service_call_id) = none) :
    (call_service env s service request client call_handle).threw = true
    ∧ mlookup (call_service env s service request client call_handle).state.service_request_info
        (toDecString s.next_service_call_id) = some ⟨client, call_handle⟩
    ∧ (call_service env s service request client call_handle).state.service_request_info
        ≠ s.service_request_info
    ∧ (call_service env s service request client call_handle).sends = [] := by
  have hstep : call_service env s service request client call_handle
      = { state := (alloc_service_call_id s client call_handle).2, threw := true, sends := [] } := by
    unfold call_service
    dsimp only
    rw [show (alloc_service_call_id s client call_handle).2.service_provider_info
        = s.service_provider_info from rfl, hprov]
  rw [hstep]
  refine ⟨rfl, ?_, ?_, rfl⟩
  · exact mlookup_msetKey_self s.service_request_info _ _
  · intro heq
    rw [show (alloc_service_call_id s client call_handle).2.service_request_info
        = msetKey s.service_request_info (toDecString s.next_service_call_id)
            ⟨client, call_handle⟩ from rfl] at heq
    have := mlookup_msetKey_self s.service_request_info
      (toDecString s.next_service_call_id) (⟨client, call_handle⟩ : ServiceRequestInfo)
    rw [heq, hfresh] at this
    exact Option.noConfusion this

/-- Witness for C9: on the fresh endpoint, calling the unprovided service
`"nope"` throws but leaves ledger entry `"1"` behind. -/
theorem c9_witness :
    mlookup initialEndpoint.service_provider_info "nope" = none
    ∧ mlookup initialEndpoint.service_request_info (toDecString 1) = none
    ∧ (call_service sampleEncoding initialEndpoint "nope" 9 2 3).threw = true
    ∧ mlookup (call_service sampleEncoding initialEndpoint "nope" 9 2 3).state.service_request_info
        (toDecString 1) = some ⟨2, 3⟩
    ∧ (call_service sampleEncoding initialEndpoint "nope" 9 2 3).state.service_request_info
        ≠ initialEndpoint.service_request_info := by
  have h := c9_call_service_unknown_provider sampleEncoding initialEndpoint "nope" 9 2 3
    (by decide) (by decide)
  exact ⟨by decide, by decide, h.1, h.2.1, h.2.2.1⟩

theorem range'_map_mod (a len : Nat) :
    (List.range' (a % 2 ^ 64) len).map (· % 2 ^ 64)
      = (List.range' a len).map (· % 2 ^ 64) := by
  rw [List.range'_eq_map_range, List.range'_eq_map_range, List.map_map, List.map_map]
  apply List.map_congr_left
  intro i _
  show (a % 2 ^ 64 + i) % 2 ^ 64 = (a + i) % 2 ^ 64
  exact Nat.mod_add_mod a (2 ^ 64) i

theorem allocIds_eq_range_mod (calls : List (Nat × Nat)) :
    ∀ s : EndpointState, s.next_service_call_id < 2 ^ 64 →
      allocIds s calls
        = (List.range' s.next_service_call_id calls.length).map (· % 2 ^ 64) := by
  induction calls with
  | nil => intro s _; simp [allocIds]
  | cons c rest ih =>
    intro s hs
    rw [show allocIds s (c :: rest)
        = s.next_service_call_id :: allocIds (alloc_service_call_id s c.1 c.2).2 rest from rfl,
      ih _ (Nat.mod_lt _ (by norm_num))]
    rw [show (alloc_service_call_id s c.1 c.2).2.next_service_call_id
        = (s.next_service_call_id + 1) % 2 ^ 64 from rfl]
    rw [range'_map_mod]
    rw [show List.range' s.next_service_call_id ((c :: rest).length)
        = s.next_service_call_id :: List.range' (s.next_service_call_id + 1) rest.length
        from rfl]
    rw [List.map_cons, Nat.mod_eq_of_lt hs]

/-- C5 (counterexample): over the endpoint's whole lifetime the claim fails,
because the `std::size_t` counter wraps: after `2 ^ 64` invocations of
`call_service` on the fresh endpoint the allocated ids are no longer
strictly increasing (the last allocation takes id `0` after id
`2 ^ 64 - 1`), refuting the unbounded-lifetime statement. -/
theorem c5_counterexample :
    ¬ (List.Pairwise (· < ·)
          (allocIds initialEndpoint (List.replicate (2 ^ 64) ((0 : Nat), (0 : Nat))))
        ∧ ((allocIds initialEndpoint
              (List.replicate (2 ^ 64) ((0 : Nat), (0 : Nat)))).map toDecString).Nodup) := by
  rintro ⟨hp, -⟩
  rw [allocIds_eq_range_mod _ initialEndpoint
    (by show (1 : Nat) < 2 ^ 64; norm_num)] at hp
  have hlen : ((List.range' initialEndpoint.next_service_call_id
      (List.replicate (2 ^ 64) ((0 : Nat), (0 : Nat))).length).map (· % 2 ^ 64)).length
      = 2 ^ 64 := by
    rw [List.length_map, List.length_range', List.length_replicate]
  have h01 := List.pairwise_iff_getElem.mp hp 0 (2 ^ 64 - 1)
    (by rw [hlen]; norm_num) (by rw [hlen]; norm_num) (by norm_num)
  rw [List.getElem_map, List.getElem_map, List.getElem_range'_1, List.getElem_range'_1,
    show initialEndpoint.next_service_call_id = 1 from rfl] at h01
  have ha : (1 + 0) % 2 ^ 64 = 1 := by norm_num
  have hb : (1 + (2 ^ 64 - 1)) % 2 ^ 64 = 0 := by norm_num
  rw [ha, hb] at h01
  exact absurd h01 (by norm_num)

/-- C5 (amended): as long as the 64-bit `_next_service_call_id` counter does
not wrap — the allocations fit below `2 ^ 64`, which from the fresh endpoint
(counter 1) means fewer than `2 ^ 64` invocations of `call_service` over the
endpoint's lifetime — the numeric ids taken by a sequence of invocations
(any serialization of concurrent callers; the counter mutex makes each
allocation atomic) are strictly increasing in invocation order, and the
decimal id strings under which the ledger entries are filed are pairwise
distinct, so no id is reused. -/
theorem c5_service_call_ids (s : EndpointState) (calls : List (Nat × Nat))
    (hlen : s.next_service_call_id + calls.length ≤ 2 ^ 64) :
    List.Pairwise (· < ·) (allocIds s calls)
    ∧ ((allocIds s calls).map toDecString).Nodup := by
  cases calls with
  | nil => simp [allocIds]
  | cons c rest =>
    have hs : s.next_service_call_id < 2 ^ 64 := by
      have hl : (c :: rest).length = rest.length + 1 := rfl
      rw [hl] at hlen
      omega
    have hall : allocIds s (c :: rest)
        = List.range' s.next_service_call_id (c :: rest).length := by
      rw [allocIds_eq_range_mod _ _ hs]
      have hid : ∀ x ∈ List.range' s.next_service_call_id (c :: rest).length,
          x % 2 ^ 64 = x := by
        intro x hx
        exact Nat.mod_eq_of_lt (lt_of_lt_of_le (List.mem_range'_1.mp hx).2 hlen)
      rw [List.map_congr_left hid, List.map_id']
    rw [hall]
    exact ⟨List.pairwise_lt_range' _ _,
      (List.pairwise_lt_range' _ _).nodup.map toDecString_injective⟩

/-- Witness for the amended C5: two calls on the fresh endpoint stay far
below the wrap bound and take the distinct increasing ids 1 and 2. -/
theorem c5_witness :
    initialEndpoint.next_service_call_id
        + ([((0 : Nat), (0 : Nat)), (1, 2)] : List (Nat × Nat)).length ≤ 2 ^ 64
    ∧ List.Pairwise (· < ·) (allocIds initialEndpoint [(0, 0), (1, 2)])
    ∧ ((allocIds initialEndpoint [(0, 0), (1, 2)]).map toDecString).Nodup := by
  have h := c5_service_call_ids initialEndpoint [(0, 0), (1, 2)]
    (by show (1 : Nat) + 2 ≤ 2 ^ 64; norm_num)
  exact ⟨by show (1 : Nat) + 2 ≤ 2 ^ 64; norm_num, h.1, h.2⟩

/-- The other routed operations never touch `_next_service_call_id`, so a
lifetime trace with them interleaved allocates the same ids as the pure
`call_service` subsequence modelled in `allocIds`. -/
theorem next_id_untouched_by_other_ops (s : EndpointState) (topic id : String)
    (tn : String) (mt : Option String) (response conn H : Nat) :
    (receive_topic_advertisement_ws s topic tn conn).next_service_call_id
        = s.next_service_call_id
    ∧ (receive_service_response_ws s response id).state.next_service_call_id
        = s.next_service_call_id
    ∧ (notify_connection_closed s H).next_service_call_id = s.next_service_call_id
    ∧ (∀ s', receive_subscribe_request_ws s topic mt id conn = some s' →
        s'.next_service_call_id = s.next_service_call_id) := by
  refine ⟨?_, ?_, rfl, ?_⟩
  · unfold receive_topic_advertisement_ws
    cases mlookup s.topic_subscribe_info topic with
    | none => rfl
    | some info => by_cases hx : tn ≠ info.type <;> simp [hx]
  · unfold receive_service_response_ws
    cases mlookup s.service_request_info id with
    | none => rfl
    | some info => rfl
  · intro s'
    unfold receive_subscribe_request_ws
    cases mlookup s.topic_publish_info topic with
    | none => intro hs; injection hs with hs; rw [← hs]
    | some info =>
      cases mt with
      | none => intro hs; exact absurd hs (by simp)
      | some t =>
        dsimp only
        by_cases hx : t ≠ info.type
        · rw [if_pos hx]
          intro hs; injection hs with hs; rw [← hs]
        · rw [if_neg hx]
          intro hs; injection hs with hs; rw [← hs]

/-- A state whose startup log holds two registration messages. -/
def sampleStartupState : EndpointState :=
  { initialEndpoint with startup_messages := ["m1", "m2"] }

/-- C6: on the `opened` event of a connection, the endpoint sends the
complete startup-message log, in original append order, before any
application frame: the first `|_startup_messages|` frames of the
connection's send log are exactly the startup messages, and every
application frame sits at an index no smaller than that. -/
theorem c6_startup_replay (s : EndpointState) (es : List ConnEvent) :
    ((conn_log s (ConnEvent.opened :: es)).take s.startup_messages.length).map Prod.snd
        = s.startup_messages
    ∧ ∀ i f, (conn_log s (ConnEvent.opened :: es)).get? i = some (false, f) →
        s.startup_messages.length ≤ i := by
  have hlog : conn_log s (ConnEvent.opened :: es)
      = s.startup_messages.map (fun m => (true, m)) ++ conn_log s es := by
    rw [show conn_log s (ConnEvent.opened :: es)
        = (notify_connection_opened_sends s).map (fun m => (true, m)) ++ conn_log s es
        from rfl, notify_connection_opened_sends_eq]
  constructor
  · rw [hlog, show s.startup_messages.length
        = (s.startup_messages.map (fun m => (true, m))).length by simp,
      List.take_left, List.map_map]
    simp
  · intro i f hget
    by_contra hlt
    push_neg at hlt
    rw [hlog, List.get?_append (by simpa using hlt), List.get?_map] at hget
    cases hm : s.startup_messages.get? i with
    | none =>
      rw [hm] at hget
      exact Option.noConfusion hget
    | some m =>
      rw [hm] at hget
      injection hget with hget
      exact Bool.noConfusion (congrArg Prod.fst hget)

/-- Witness for C6 on `sampleStartupState` with one application frame after
the open: the first two frames are the two startup messages and the
application frame sits at index 2. -/
theorem c6_witness :
    ((conn_log sampleStartupState (ConnEvent.opened :: [ConnEvent.app "x"])).take
        sampleStartupState.startup_messages.length).map Prod.snd
        = sampleStartupState.startup_messages
    ∧ (conn_log sampleStartupState (ConnEvent.opened :: [ConnEvent.app "x"])).get? 2
        = some (false, "x")
    ∧ sampleStartupState.startup_messages.length ≤ 2 := by
  refine ⟨(c6_startup_replay sampleStartupState [ConnEvent.app "x"]).1, by decide, ?_⟩
  exact (c6_startup_replay sampleStartupState [ConnEvent.app "x"]).2 2 "x" (by decide)

theorem step_blacklist (s : EndpointState) (e : AdEvent) (T : String) (C : Nat)
    (j : TopicSubscribeInfo) (hj : mlookup s.topic_subscribe_info T = some j) :
    ∃ j', mlookup (receive_topic_advertisement_ws s e.topic e.type_name e.conn).topic_subscribe_info T
        = some j'
      ∧ j'.type = j.type
      ∧ (C ∈ j'.blacklist ↔
          if e.topic = T ∧ e.conn = C then e.type_name ≠ j.type else C ∈ j.blacklist) := by
  unfold receive_topic_advertisement_ws
  cases he : mlookup s.topic_subscribe_info e.topic with
  | none =>
    refine ⟨j, hj, rfl, ?_⟩
    have hne : ¬(e.topic = T ∧ e.conn = C) := by
      rintro ⟨rfl, -⟩
      rw [hj] at he
      exact Option.noConfusion he
    rw [if_neg hne]
  | some info =>
    dsimp only
    by_cases hT : e.topic = T
    · subst hT
      rw [hj] at he
      injection he with he
      subst he
      by_cases hmt : e.type_name ≠ j.type
      · rw [if_pos hmt]
        refine ⟨{ j with blacklist := setInsert j.blacklist e.conn }, ?_, rfl, ?_⟩
        · dsimp only
          exact mlookup_msetKey_self _ _ _
        · dsimp only
          by_cases hc : e.conn = C
          · subst hc
            rw [if_pos ⟨rfl, rfl⟩, mem_setInsert]
            simp [hmt]
          · have hcond : ¬(e.topic = e.topic ∧ e.conn = C) := fun hx => hc hx.2
            rw [if_neg hcond, mem_setInsert]
            simp [Ne.symm hc]
      · rw [if_neg hmt]
        refine ⟨{ j with blacklist := setErase j.blacklist e.conn }, ?_, rfl, ?_⟩
        · dsimp only
          exact mlookup_msetKey_self _ _ _
        · dsimp only
          by_cases hc : e.conn = C
          · subst hc
            rw [if_pos ⟨rfl, rfl⟩, mem_setErase]
            push_neg at hmt
            simp [hmt]
          · have hcond : ¬(e.topic = e.topic ∧ e.conn = C) := fun hx => hc hx.2
            rw [if_neg hcond, mem_setErase]
            simp [Ne.symm hc]
    · have hcond : ¬(e.topic = T ∧ e.conn = C) := fun hx => hT hx.1
      rw [if_neg hcond]
      by_cases hmt : e.type_name ≠ info.type
      · rw [if_pos hmt]
        exact ⟨j, by dsimp only; rw [mlookup_msetKey_ne _ _ _ _ (Ne.symm hT)]; exact hj,
          rfl, Iff.rfl⟩
      · rw [if_neg hmt]
        exact ⟨j, by dsimp only; rw [mlookup_msetKey_ne _ _ _ _ (Ne.symm hT)]; exact hj,
          rfl, Iff.rfl⟩

theorem run_ads_blacklist (evs : List AdEvent) :
    ∀ (s : EndpointState) (T : String) (C : Nat) (j : TopicSubscribeInfo),
      mlookup s.topic_subscribe_info T = some j →
      ∃ j', mlookup (run_advertisements s evs).topic_subscribe_info T = some j'
        ∧ j'.type = j.type
        ∧ (C ∈ j'.blacklist ↔
            match lastAdType evs T C with
            | some t => t ≠ j.type
            | none => C ∈ j.blacklist) := by
  induction evs with
  | nil =>
    intro s T C j hj
    exact ⟨j, hj, rfl, by simp [lastAdType]⟩
  | cons e rest ih =>
    intro s T C j hj
    obtain ⟨j₁, hj₁, htype₁, hmem₁⟩ := step_blacklist s e T C j hj
    obtain ⟨j', hj', htype', hmem'⟩ := ih _ T C j₁ hj₁
    refine ⟨j', hj', htype'.trans htype₁, ?_⟩
    rw [hmem']
    cases hrest : lastAdType rest T C with
    | some t =>
      rw [show lastAdType (e :: rest) T C = some t by rw [lastAdType, hrest]]
      show (t ≠ j₁.type) ↔ (t ≠ j.type)
      rw [htype₁]
    | none =>
      rw [show lastAdType (e :: rest) T C
          = if e.topic = T ∧ e.conn = C then some e.type_name else none by
        rw [lastAdType, hrest]]
      by_cases hc : e.topic = T ∧ e.conn = C
      · rw [if_pos hc]
        rw [if_pos hc] at hmem₁
        show C ∈ j₁.blacklist ↔ e.type_name ≠ j.type
        exact hmem₁
      · rw [if_neg hc]
        rw [if_neg hc] at hmem₁
        show C ∈ j₁.blacklist ↔ C ∈ j.blacklist
        exact hmem₁

/-- C2: for a subscribed topic `T` (blacklist initially empty, as
`Endpoint::subscribe` leaves it), after any sequence of incoming topic
advertisements a connection `C` is in `T`'s blacklist iff the last
advertisement from `C` for `T` declared a type different from the expected
type; with no advertisement from `C` for `T`, `C` is not blacklisted. -/
theorem c2_blacklist_invariant (s : EndpointState) (evs : List AdEvent)
    (T : String) (C : Nat) (info₀ info : TopicSubscribeInfo)
    (h0 : mlookup s.topic_subscribe_info T = some info₀)
    (hbl : info₀.blacklist = [])
    (h1 : mlookup (run_advertisements s evs).topic_subscribe_info T = some info) :
    C ∈ info.blacklist ↔ ∃ t, lastAdType evs T C = some t ∧ t ≠ info₀.type := by
  obtain ⟨j', hj', htype', hmem'⟩ := run_ads_blacklist evs s T C info₀ h0
  rw [hj'] at h1
  injection h1 with h1
  subst h1
  rw [hmem']
  cases hlast : lastAdType evs T C with
  | some t => simp [hlast]
  | none => simp [hlast, hbl]

/-- A state subscribed to `"chat"`, expected type `"Str"`, fresh blacklist. -/
def sampleSubscribeState : EndpointState :=
  { initialEndpoint with topic_subscribe_info := [("chat", ⟨"Str", 0, []⟩)] }

/-- Witness for C2: after one mismatching advertisement (`"Int"` instead of
`"Str"`) from connection 4, that connection is blacklisted, and the iff of
the claim holds at this concrete trace. -/
theorem c2_witness :
    mlookup sampleSubscribeState.topic_subscribe_info "chat" = some ⟨"Str", 0, []⟩
    ∧ (⟨"Str", 0, []⟩ : TopicSubscribeInfo).blacklist = []
    ∧ mlookup (run_advertisements sampleSubscribeState
        [⟨"chat", "Int", 4⟩]).topic_subscribe_info "chat" = some ⟨"Str", 0, [4]⟩
    ∧ ((4 : Nat) ∈ (⟨"Str", 0, [4]⟩ : TopicSubscribeInfo).blacklist
        ↔ ∃ t, lastAdType [⟨"chat", "Int", 4⟩] "chat" 4 = some t ∧ t ≠ "Str") := by
  refine ⟨by decide, rfl, by decide, ?_⟩
  exact c2_blacklist_invariant sampleSubscribeState [⟨"chat", "Int", 4⟩] "chat" 4
    ⟨"Str", 0, []⟩ ⟨"Str", 0, [4]⟩ (by decide) rfl (by decide)
